import Mathlib

/-!
Verification development for the baf-sdk-python repository.

The repository is a Python client for the "Project Agent Builder" HTTP API.
The definitions below are shallow embeddings of the client's core logic:

* `src/baf_sdk/models.py` — data model and `Message.from_api_dict`;
* `src/pab_sdk/auth.py` — `TokenManager.get_token` / `_refresh_token`;
* `src/pab_sdk/client.py` — `AgentBuilderClient` readiness pollers,
  `wait_for_message_response`, `create_tool`, `create_chat`;
* `src/pab_client.py` — `PABClient._get_token`, `add_document` retry loop,
  the unbounded `_wait_for_*_ready` loops, `create_agent`, and the
  `AgentInterface` document operations.

Network fetches are modelled as input sequences (`Nat → α`: the value the
k-th fetch returns); `while` loops are modelled with an explicit fuel
parameter; Python exceptions become `Except`; Python `dict`s become
association lists of `JValue`s.  Wall-clock sleeping only delays the loops
and is not modelled, except where a claim is about the sleep amounts, which
are then recorded as a list.  Times are modelled as rationals (Python uses
floats; none of the properties below depend on rounding).
-/

/-- A JSON value, as held in the Python dicts that the client passes around. -/
inductive JValue where
  | str (s : String)
  | num (n : Int)
  | bool (b : Bool)
  | null
  | obj (fields : List (String × JValue))
  | arr (elems : List JValue)

/-- Python `dict.get(key)` on an association-list model of a dict:
the value at the first occurrence of `key`, or `none`. -/
def jlookup (data : List (String × JValue)) (key : String) : Option JValue :=
  (data.find? (fun p => p.1 = key)).map (fun p => p.2)

/-- `MessageRole` enum from `baf_sdk/models.py`. -/
inductive MessageRole where
  | user | assistant | system | ai
deriving DecidableEq

/-- `MessageType` enum from `baf_sdk/models.py`. -/
inductive MessageType where
  | start | agent | tool | toolResource | abort | error
  | answerForUser | questionForUser | questionForTool | questionForAgent | event
deriving DecidableEq

/-- `ChatState` enum from `baf_sdk/models.py`. -/
inductive ChatState where
  | active | processing | failed | success | running | none
deriving DecidableEq

/-- `ResourceState` enum from `baf_sdk/models.py`. -/
inductive ResourceState where
  | uploading | processing | ready | error
deriving DecidableEq

/-- The Python exceptions that the embedded code can raise. -/
inductive PyExc where
  | valueError (msg : String)
  | attributeError (msg : String)
  | httpStatusError (status : Nat) (body : String)
  | runtimeError (msg : String)
  | other (msg : String)
deriving DecidableEq

/-- `MessageRole(value)` — the enum constructor: `some` on a member value,
`none` where Python raises `ValueError`. -/
def messageRoleOf : JValue → Option MessageRole
  | JValue.str "user" => some MessageRole.user
  | JValue.str "assistant" => some MessageRole.assistant
  | JValue.str "system" => some MessageRole.system
  | JValue.str "ai" => some MessageRole.ai
  | _ => none

/-- `MessageType(value)` — the enum constructor: `some` on a member value,
`none` where Python raises `ValueError`. -/
def messageTypeOf : JValue → Option MessageType
  | JValue.str "start" => some MessageType.start
  | JValue.str "agent" => some MessageType.agent
  | JValue.str "tool" => some MessageType.tool
  | JValue.str "toolResource" => some MessageType.toolResource
  | JValue.str "abort" => some MessageType.abort
  | JValue.str "error" => some MessageType.error
  | JValue.str "answerForUser" => some MessageType.answerForUser
  | JValue.str "questionForUser" => some MessageType.questionForUser
  | JValue.str "questionForTool" => some MessageType.questionForTool
  | JValue.str "questionForAgent" => some MessageType.questionForAgent
  | JValue.str "event" => some MessageType.event
  | _ => none

/-- `ChatState(value)` — the enum constructor: `some` on a member value,
`none` where Python raises `ValueError`. -/
def chatStateOf : JValue → Option ChatState
  | JValue.str "active" => some ChatState.active
  | JValue.str "processing" => some ChatState.processing
  | JValue.str "failed" => some ChatState.failed
  | JValue.str "success" => some ChatState.success
  | JValue.str "running" => some ChatState.running
  | JValue.str "none" => some ChatState.none
  | _ => none

/-- Python truthiness of a JSON value (`if not x` tests). -/
def jtruthy : JValue → Bool
  | JValue.str s => !(s = "")
  | JValue.num n => !(n = 0)
  | JValue.bool b => b
  | JValue.null => false
  | JValue.obj fields => !fields.isEmpty
  | JValue.arr elems => !elems.isEmpty

/-- Model of the Python standard-library `datetime.fromisoformat`: succeeds on
strings whose first ten characters have the ISO `YYYY-MM-DD` shape (the prefix
every CPython version requires) and raises `ValueError` otherwise.  The
parsed value is represented by the accepted string itself; none of the
verified properties inspect it further. -/
def fromisoformat (s : String) : Option String :=
  let cs := s.toList
  if cs.length ≥ 10
      ∧ (cs.take 4).all Char.isDigit
      ∧ cs.get? 4 = some '-'
      ∧ ((cs.drop 5).take 2).all Char.isDigit
      ∧ cs.get? 7 = some '-'
      ∧ ((cs.drop 8).take 2).all Char.isDigit
  then some s else none

/-- `parse_datetime` from `baf_sdk/models.py`: falsy input (absent field,
`None`, empty string, …) yields `None`; a string gets its trailing `Z`
replaced by `+00:00` and is handed to `fromisoformat`, whose `ValueError`
propagates; a truthy non-string raises `AttributeError` at `.endswith`. -/
def parse_datetime (date_str : Option JValue) : Except PyExc (Option String) :=
  match date_str with
  | Option.none => Except.ok Option.none
  | some v =>
    if jtruthy v then
      match v with
      | JValue.str s =>
        let s2 := if s.toList.getLast? = some 'Z'
                  then String.mk s.toList.dropLast ++ "+00:00" else s
        match fromisoformat s2 with
        | some d => Except.ok (some d)
        | Option.none => Except.error (PyExc.valueError ("Invalid isoformat string: " ++ s2))
      | _ => Except.error (PyExc.attributeError "object has no attribute endswith")
    else Except.ok Option.none

/-- `Message` dataclass from `baf_sdk/models.py`.  `previous_id` and `id`
keep the raw JSON value the dict held (Python stores them untyped). -/
structure Message where
  content : JValue
  role : MessageRole
  id : Option JValue := Option.none
  created_at : Option String := Option.none
  previous_id : Option JValue := Option.none
  type : Option MessageType := Option.none

/-- The `role_value` computed by `Message.from_api_dict`:
`data.get("role", data.get("sender", "user"))`. -/
def roleValueOf (data : List (String × JValue)) : JValue :=
  (jlookup data "role").getD ((jlookup data "sender").getD (JValue.str "user"))

/-- The `previous_id` computed by `Message.from_api_dict`: the `ID` member of
a nested `previous` object, else the flat `previous_ID` value, else `None`. -/
def previousIdOf (data : List (String × JValue)) : Option JValue :=
  match jlookup data "previous" with
  | some (JValue.obj fields) => jlookup fields "ID"
  | _ => jlookup data "previous_ID"

/-- `Message.from_api_dict` from `baf_sdk/models.py`.  Unknown `role` falls
back to `user`, unknown `type` to `None`, missing `content` to `""`;
only `parse_datetime` on `createdAt` can raise. -/
def Message.from_api_dict (data : List (String × JValue)) : Except PyExc Message :=
  let previous_id := previousIdOf data
  let message_type := (jlookup data "type").bind messageTypeOf
  let role := (messageRoleOf (roleValueOf data)).getD MessageRole.user
  match parse_datetime (jlookup data "createdAt") with
  | Except.error e => Except.error e
  | Except.ok created_at =>
    Except.ok
      { id := jlookup data "ID"
        content := (jlookup data "content").getD (JValue.str "")
        role := role
        created_at := created_at
        previous_id := previous_id
        type := message_type }

example : parse_datetime (some (JValue.str "2024-01-02T03:04:05Z"))
    = Except.ok (some "2024-01-02T03:04:05+00:00") := by rfl

example : parse_datetime (some (JValue.str "garbage"))
    = Except.error (PyExc.valueError "Invalid isoformat string: garbage") := by rfl

example : Message.from_api_dict [("content", JValue.str "hi"), ("role", JValue.str "ai")]
    = Except.ok { content := JValue.str "hi", role := MessageRole.ai } := by rfl

/-! ## Readiness pollers (`pab_sdk/client.py`)

`wait_for_tool_ready` and `wait_for_resource_ready` are the same
`for attempt in range(max_attempts)` loop over a fetched state projection;
`pollLoop` is that loop, with the fetch results supplied as a sequence and
the per-iteration tests as parameters.  Each instantiation below spells the
tests of its source function.  The second component of the result is the
number of fetches performed (the loop index reached). -/

/-- Error vocabulary of the pollers: `ResourceNotReadyError` carrying the
server-reported `lastError` text, and `TimeoutError` after `max_attempts`. -/
inductive ReadyError where
  | resourceNotReady (lastError : Option String)
  | timeout
deriving DecidableEq

/-- The bounded polling loop shared by `wait_for_tool_ready` and
`wait_for_resource_ready`: fetch, return on ready, raise on error,
otherwise sleep and re-poll; `TimeoutError` when the budget is exhausted.
Returns the result together with the number of fetches performed. -/
def pollLoop {α : Type} (isReady isError : α → Bool) (mkError : α → ReadyError)
    (fetch : Nat → α) : Nat → Nat → Except ReadyError α × Nat
  | 0, idx => (Except.error ReadyError.timeout, idx)
  | Nat.succ fuel, idx =>
    if isReady (fetch idx) then (Except.ok (fetch idx), idx + 1)
    else if isError (fetch idx) then (Except.error (mkError (fetch idx)), idx + 1)
    else pollLoop isReady isError mkError fetch fuel (idx + 1)

/-- `Tool` dataclass projection used by the poller (`state` is the raw
optional string from the API, `last_error` the `lastError` field). -/
structure Tool where
  state : Option String
  last_error : Option String
deriving DecidableEq

/-- `Resource` dataclass projection used by the poller (`state` parsed into
the `ResourceState` enum, `None` when absent or unknown). -/
structure Resource where
  state : Option ResourceState
  last_error : Option String
deriving DecidableEq

/-- `AgentBuilderClient.wait_for_tool_ready`: compares the raw state string
with `"ready"` / `"error"`. -/
def wait_for_tool_ready (fetch : Nat → Tool) (max_attempts : Nat) :
    Except ReadyError Tool × Nat :=
  pollLoop (fun t => decide (t.state = some "ready"))
    (fun t => decide (t.state = some "error"))
    (fun t => ReadyError.resourceNotReady t.last_error) fetch max_attempts 0

/-- `AgentBuilderClient.wait_for_resource_ready`: compares the parsed state
with `ResourceState.READY` / `ResourceState.ERROR`. -/
def wait_for_resource_ready (fetch : Nat → Resource) (max_attempts : Nat) :
    Except ReadyError Resource × Nat :=
  pollLoop (fun r => decide (r.state = some ResourceState.ready))
    (fun r => decide (r.state = some ResourceState.error))
    (fun r => ReadyError.resourceNotReady r.last_error) fetch max_attempts 0

/-! ## Reply polling (`AgentBuilderClient.wait_for_message_response`) -/

/-- Error vocabulary of the reply poller: `ApiError("Chat processing failed")`
when the chat enters the failed state, `TimeoutError` after `max_attempts`. -/
inductive WaitError where
  | apiError
  | timeout
deriving DecidableEq

/-- Python `==` between an optional raw JSON value and a `str`: true exactly
when the value is that string (`None == s` and `5 == s` are `False`). -/
def jvalEqStr : Option JValue → String → Bool
  | some (JValue.str s), h => s == h
  | _, _ => false

/-- The inner `for message in all_messages` scan: the first message whose
`previous_id` equals the given `history_id` (a Python `==` between the raw
previous reference and the history-id string). -/
def findResponse (history_id : String) : List Message → Option Message
  | [] => Option.none
  | m :: rest =>
    if jvalEqStr m.previous_id history_id then some m
    else findResponse history_id rest

/-- The `for attempt in range(max_attempts)` body of
`wait_for_message_response`: list the chat history, return the first reply
node; otherwise fetch the chat state and abort with `ApiError` if it is
`FAILED`; otherwise sleep and re-poll.  `histories k` is the message list
returned by the k-th history fetch, `chatState k` the parsed chat state the
k-th `get_chat` would return.  The second component counts history fetches. -/
def wfmrAux (histories : Nat → List Message) (chatState : Nat → Option ChatState)
    (history_id : String) : Nat → Nat → Except WaitError Message × Nat
  | 0, idx => (Except.error WaitError.timeout, idx)
  | Nat.succ fuel, idx =>
    match findResponse history_id (histories idx) with
    | some m => (Except.ok m, idx + 1)
    | Option.none =>
      if chatState idx = some ChatState.failed then (Except.error WaitError.apiError, idx + 1)
      else wfmrAux histories chatState history_id fuel (idx + 1)

/-- `AgentBuilderClient.wait_for_message_response`. -/
def wait_for_message_response (histories : Nat → List Message)
    (chatState : Nat → Option ChatState) (history_id : String) (max_attempts : Nat) :
    Except WaitError Message × Nat :=
  wfmrAux histories chatState history_id max_attempts 0

/-! ## Unbounded readiness loops (`pab_client.py`)

`PABClient._wait_for_tool_ready`, `_wait_for_resource_ready` and
`_wait_for_agent_ready` are `while not ready:` loops with no attempt bound.
They are embedded as fuel-indexed runners: `none` means the loop is still
running after the given number of iterations, `some r` that it finished
with `r` within them. -/

/-- The raw `{state?, lastError?}` dict projection the `pab_client.py`
loops inspect. -/
structure StateProj where
  state : Option String
  lastError : Option String
deriving DecidableEq

/-- `PABClient._wait_for_tool_ready`: raise `RuntimeError` (carrying
`lastError`) on state `"error"`, done on `"ready"`, otherwise sleep and
re-poll — forever. -/
def pabToolWaitFuel (fetch : Nat → StateProj) : Nat → Nat → Option (Except (Option String) Unit)
  | 0, _ => Option.none
  | Nat.succ fuel, k =>
    if (fetch k).state = some "error" then some (Except.error (fetch k).lastError)
    else if (fetch k).state = some "ready" then some (Except.ok ())
    else pabToolWaitFuel fetch fuel (k + 1)

/-- `PABClient._wait_for_resource_ready`: same loop as the tool variant,
against the resource projection. -/
def pabResourceWaitFuel (fetch : Nat → StateProj) : Nat → Nat → Option (Except (Option String) Unit)
  | 0, _ => Option.none
  | Nat.succ fuel, k =>
    if (fetch k).state = some "error" then some (Except.error (fetch k).lastError)
    else if (fetch k).state = some "ready" then some (Except.ok ())
    else pabResourceWaitFuel fetch fuel (k + 1)

/-- `PABClient._wait_for_agent_ready`: like the tool variant, except
`ready = state == "ready" or "state" not in agent_data` — an absent state
field counts as ready. -/
def pabAgentWaitFuel (fetch : Nat → StateProj) : Nat → Nat → Option (Except (Option String) Unit)
  | 0, _ => Option.none
  | Nat.succ fuel, k =>
    if (fetch k).state = some "error" then some (Except.error (fetch k).lastError)
    else if (fetch k).state = some "ready" ∨ (fetch k).state = Option.none then some (Except.ok ())
    else pabAgentWaitFuel fetch fuel (k + 1)

example : wait_for_tool_ready (fun _ => ⟨some "creating", Option.none⟩) 3
    = (Except.error ReadyError.timeout, 3) := by rfl

example : pabAgentWaitFuel (fun _ => ⟨Option.none, Option.none⟩) 5 0
    = some (Except.ok ()) := by rfl

example : pabToolWaitFuel (fun _ => ⟨Option.none, Option.none⟩) 5 0 = Option.none := by rfl

/-! ## Token managers

Times are rationals (`time.time()` values); a grant response is the pair
`(access_token, expires_in)` the token endpoint would return. -/

/-- `TokenManager` state from `pab_sdk/auth.py`: `_token` and `_expires_at`
(both `None` before the first refresh). -/
structure TMState where
  token : Option String := Option.none
  expires_at : Option ℚ := Option.none

/-- The refresh test in `TokenManager.get_token`:
`not self._token or not self._expires_at or self._expires_at <= time.time() + 60`
(Python truthiness: a `None` or empty token, and a `None` or `0` expiry,
are falsy). -/
def tm_needs_refresh (st : TMState) (now : ℚ) : Bool :=
  decide (st.token = Option.none) || decide (st.token = some "") ||
    (match st.expires_at with
     | Option.none => true
     | some e => decide (e = 0) || decide (e ≤ now + 60))

/-- `TokenManager._refresh_token`: store the new token and
`time.time() + expires_in * 0.9` as the expiry. -/
def tm_refresh (now : ℚ) (access_token : String) (expires_in : ℚ) : TMState :=
  { token := some access_token, expires_at := some (now + expires_in * (9 / 10)) }

/-- `TokenManager.get_token`: refresh when needed, return the stored token.
The boolean records whether a grant request was performed. -/
def tm_get_token (st : TMState) (now : ℚ) (grant : String × ℚ) :
    TMState × String × Bool :=
  if tm_needs_refresh st now then
    let st2 := tm_refresh now grant.1 grant.2
    (st2, grant.1, true)
  else (st, st.token.getD "", false)

/-- `PABClient` token state from `pab_client.py`: `_token` and
`_token_expiry` (the expiry only read once a token exists). -/
structure PabTokState where
  token : Option String := Option.none
  token_expiry : ℚ := 0

/-- The refresh test in `PABClient._get_token`:
`not self._token or time.time() > self._token_expiry * 0.9` —
note the multiplication of the absolute expiry timestamp by `0.9`. -/
def pab_needs_refresh (st : PabTokState) (now : ℚ) : Bool :=
  if st.token = Option.none ∨ st.token = some "" then true
  else decide (now > st.token_expiry * (9 / 10))

/-- `PABClient._refresh_token`: store the new token and
`time.time() + expires_in` as the expiry. -/
def pab_refresh (now : ℚ) (access_token : String) (expires_in : ℚ) : PabTokState :=
  { token := some access_token, token_expiry := now + expires_in }

/-- `PABClient._get_token`: refresh when needed, return the stored token.
The boolean records whether a grant request was performed. -/
def pab_get_token (st : PabTokState) (now : ℚ) (grant : String × ℚ) :
    PabTokState × String × Bool :=
  if pab_needs_refresh st now then
    let st2 := pab_refresh now grant.1 grant.2
    (st2, grant.1, true)
  else (st, st.token.getD "", false)

/-! ## Retrying mutator (`PABClient.add_document`)

One `att k` is the k-th execution of the `try:` body (POST the resource,
then wait for it to be ready): `ok` with the resource id, or `error` with
the raised exception.  The result records the outcome, the list of backoff
sleeps performed (in seconds, in order), and the number of attempts. -/

/-- Does the exception match `e.response.status_code == 503` on an
`httpx.HTTPStatusError`? -/
def is503 : PyExc → Bool
  | PyExc.httpStatusError status _ => status == 503
  | _ => false

/-- The `while retry_count < max_retries:` loop of `PABClient.add_document`:
retry after `2 ** retry_count` seconds on a 503 with budget left, re-raise
the original exception otherwise, `RuntimeError` if the loop exits.
The fuel always enters as `max_retries - rc`, so the fuel-0 branch is the
loop-condition-false exit. -/
def addDocLoop (att : Nat → Except PyExc String) (max_retries : Nat) :
    Nat → Nat → Except PyExc String × List Nat × Nat
  | 0, _rc => (Except.error (PyExc.runtimeError "Failed to add document after maximum retries"), [], 0)
  | Nat.succ fuel, rc =>
    if rc < max_retries then
      match att rc with
      | Except.ok rid => (Except.ok rid, [], 1)
      | Except.error e =>
        match e with
        | PyExc.httpStatusError status body =>
          if status = 503 ∧ rc + 1 < max_retries then
            let r := addDocLoop att max_retries fuel (rc + 1)
            (r.1, 2 ^ (rc + 1) :: r.2.1, r.2.2 + 1)
          else (Except.error (PyExc.httpStatusError status body), [], 1)
        | _ => (Except.error e, [], 1)
    else (Except.error (PyExc.runtimeError "Failed to add document after maximum retries"), [], 0)

/-- `PABClient.add_document` with its retry budget (`max_retries = 3` in the
source). -/
def add_document (att : Nat → Except PyExc String) (max_retries : Nat) :
    Except PyExc String × List Nat × Nat :=
  addDocLoop att max_retries max_retries 0

example :
    add_document (fun _ => Except.error (PyExc.httpStatusError 503 "unavailable")) 3
      = (Except.error (PyExc.httpStatusError 503 "unavailable"), [2, 4], 3) := by rfl

example :
    add_document (fun _ => Except.error (PyExc.other "boom")) 3
      = (Except.error (PyExc.other "boom"), [], 1) := by rfl

/-! ## Create-by-name operations

The server is the external collaborator of spec sections 3 and 6: it owns
the entities and assigns a fresh identifier to every POSTed creation; a
list request returns the entities in creation order.  `EntityServer` is
that interface, and the client operations below are the repository's
creation code run against it. -/

/-- Server-side entity collection: `entities` holds `(ID, name)` pairs in
creation order, `nextId` the next fresh identifier. -/
structure EntityServer where
  nextId : Nat := 0
  entities : List (Nat × String) := []
deriving DecidableEq

/-- The POST-create endpoint: append a new entity under a fresh identifier
and return that identifier. -/
def server_create (s : EntityServer) (name : String) : EntityServer × Nat :=
  ({ nextId := s.nextId + 1, entities := s.entities ++ [(s.nextId, name)] }, s.nextId)

/-- `AgentBuilderClient.create_tool` (`pab_sdk/client.py`): POST the tool
unconditionally — no name-based lookup happens first. -/
def create_tool (s : EntityServer) (name : String) : EntityServer × Nat :=
  server_create s name

/-- `AgentBuilderClient.create_chat` (`pab_sdk/client.py`): list the agent's
chats, return the first one with the requested name if any, otherwise POST
a new chat. -/
def create_chat (s : EntityServer) (name : String) : EntityServer × Nat :=
  match s.entities.find? (fun c => c.2 = name) with
  | some c => (s, c.1)
  | Option.none => server_create s name

/-- `PABClient.create_agent` (`pab_client.py`): suffix the requested name
with a fresh `uuid4()[:8]` fragment (`uuidSuffix`), then find-by-name on the
suffixed name — updating in place on a hit, POSTing a new agent otherwise. -/
def pab_create_agent (s : EntityServer) (name uuidSuffix : String) : EntityServer × Nat :=
  match s.entities.find? (fun a => a.2 = name ++ "-" ++ uuidSuffix) with
  | some a => (s, a.1)
  | Option.none => server_create s (name ++ "-" ++ uuidSuffix)

/-! ## Document operations and the tool registry (`AgentInterface`)

`tools` is the in-memory `PABClient._tools` registry (logical name →
server tool id); `serverResources` the resources the server actually holds
for the document tool.  The `Nat` in each result counts the server requests
the operation performed. -/

/-- `AgentInterface.remove_document`: a registry miss on `"document"`
returns `False` with no server request; on a hit, list the resources
(one GET), return `False` if no resource has the name, otherwise DELETE it
(a second request) and return `True`. -/
def ai_remove_document (tools : List (String × String))
    (serverResources : List (String × String)) (docName : String) : Bool × Nat :=
  match (tools.find? (fun p => p.1 = "document")).map (fun p => p.2) with
  | Option.none => (false, 0)
  | some _toolId =>
    match serverResources.find? (fun r => r.2 = docName) with
    | Option.none => (false, 1)
    | some _r => (true, 2)

/-- `AgentInterface.get_document_content`: a registry miss on `"document"`
returns `None` with no server request; on a hit, list the resources, find
the one with the name, GET it, and base64-decode its `data` field (falsy or
undecodable data yields `None`).  `b64decode` is the external
`base64.b64decode(...).decode('utf-8')` step, `none` where it raises.
The server is modelled as always responding 200, so the source's 503 retry
wrappers around each GET collapse to the single successful request. -/
def ai_get_document_content (b64decode : String → Option String)
    (tools : List (String × String))
    (serverResources : List (String × String × Option String)) (docName : String) :
    Option String × Nat :=
  match (tools.find? (fun p => p.1 = "document")).map (fun p => p.2) with
  | Option.none => (Option.none, 0)
  | some _toolId =>
    match serverResources.find? (fun r => r.2.1 = docName) with
    | Option.none => (Option.none, 1)
    | some r =>
      match r.2.2 with
      | Option.none => (Option.none, 2)
      | some data =>
        if data = "" then (Option.none, 2) else (b64decode data, 2)

example : ai_remove_document [] [("r1", "doc")] "doc" = (false, 0) := by rfl

example : ai_remove_document [("document", "t1")] [("r1", "doc")] "doc" = (true, 2) := by rfl

/-! ## Helper lemmas -/

/-- `jvalEqStr` holds exactly when the raw value is the given string. -/
theorem jvalEqStr_eq_true_iff (p : Option JValue) (h : String) :
    jvalEqStr p h = true ↔ p = some (JValue.str h) := by
  cases p with
  | none => simp [jvalEqStr]
  | some v =>
    cases v <;> simp [jvalEqStr]

/-- A message list with a unique matching reply: the history scan returns it. -/
theorem findResponse_eq_of_unique (hid : String) (msgs : List Message) (msg : Message)
    (hmem : msg ∈ msgs) (hmatch : msg.previous_id = some (JValue.str hid))
    (huniq : ∀ m', m' ∈ msgs → m'.previous_id = some (JValue.str hid) → m' = msg) :
    findResponse hid msgs = some msg := by
  induction msgs with
  | nil => cases hmem
  | cons a rest ih =>
    by_cases ha : jvalEqStr a.previous_id hid = true
    · have heq : a = msg := huniq a (List.mem_cons_self a rest) ((jvalEqStr_eq_true_iff _ _).mp ha)
      subst heq
      simp [findResponse, ha]
    · have hne : a ≠ msg := by
        intro hcon
        exact ha ((jvalEqStr_eq_true_iff _ _).mpr (hcon ▸ hmatch))
      have hmem' : msg ∈ rest := by
        rcases List.mem_cons.mp hmem with h1 | h1
        · exact absurd h1.symm hne
        · exact h1
      have hrec := ih hmem' (fun m' hm' => huniq m' (List.mem_cons_of_mem a hm'))
      simp only [Bool.not_eq_true] at ha
      simp [findResponse, ha, hrec]

/-- Skipping an initial non-terminal segment of a `pollLoop` run. -/
theorem pollLoop_skip {α : Type} (isReady isError : α → Bool) (mkError : α → ReadyError)
    (fetch : Nat → α) (k : Nat) :
    ∀ (rest idx : Nat),
      (∀ j, j < k → isReady (fetch (idx + j)) = false ∧ isError (fetch (idx + j)) = false) →
      pollLoop isReady isError mkError fetch (k + rest) idx
        = pollLoop isReady isError mkError fetch rest (idx + k) := by
  induction k with
  | zero => intro rest idx _; simp
  | succ k ih =>
    intro rest idx hpre
    have h0 := hpre 0 (Nat.succ_pos k)
    simp only [Nat.add_zero] at h0
    have hstep : k + 1 + rest = (k + rest) + 1 := by omega
    rw [hstep, pollLoop]
    simp only [h0.1, h0.2, Bool.false_eq_true, if_false]
    have hrec := ih rest (idx + 1) (fun j hj => by
      have hpj := hpre (j + 1) (Nat.succ_lt_succ hj)
      have harith : idx + 1 + j = idx + (j + 1) := by omega
      rw [harith]
      exact hpj)
    rw [hrec]
    congr 1
    omega

/-- The fetch count of a `pollLoop` run never exceeds start index plus fuel. -/
theorem pollLoop_count_le {α : Type} (isReady isError : α → Bool) (mkError : α → ReadyError)
    (fetch : Nat → α) :
    ∀ (fuel idx : Nat),
      (pollLoop isReady isError mkError fetch fuel idx).2 ≤ idx + fuel := by
  intro fuel
  induction fuel with
  | zero => intro idx; simp [pollLoop]
  | succ fuel ih =>
    intro idx
    rw [pollLoop]
    by_cases h1 : isReady (fetch idx) = true
    · simp only [h1, if_true]
      omega
    · simp only [Bool.not_eq_true] at h1
      by_cases h2 : isError (fetch idx) = true
      · simp only [h1, Bool.false_eq_true, if_false, h2, if_true]
        omega
      · simp only [Bool.not_eq_true] at h2
        simp only [h1, h2, Bool.false_eq_true, if_false]
        have := ih (idx + 1)
        omega

/-- A `pollLoop` whose first terminal fetch (index `k`) is ready returns it,
having fetched `k + 1` times. -/
theorem pollLoop_ready_at {α : Type} (isReady isError : α → Bool) (mkError : α → ReadyError)
    (fetch : Nat → α) (m k : Nat) (hk : k < m)
    (hpre : ∀ j, j < k → isReady (fetch j) = false ∧ isError (fetch j) = false)
    (hr : isReady (fetch k) = true) :
    pollLoop isReady isError mkError fetch m 0 = (Except.ok (fetch k), k + 1) := by
  obtain ⟨rest, hrest⟩ : ∃ rest, m = k + (rest + 1) := ⟨m - k - 1, by omega⟩
  subst hrest
  rw [pollLoop_skip isReady isError mkError fetch k (rest + 1) 0 (by simpa using hpre)]
  rw [pollLoop]
  simp [hr]

/-- A `pollLoop` whose first terminal fetch (index `k`) is in the error state
raises the mapped error, having fetched `k + 1` times. -/
theorem pollLoop_error_at {α : Type} (isReady isError : α → Bool) (mkError : α → ReadyError)
    (fetch : Nat → α) (m k : Nat) (hk : k < m)
    (hpre : ∀ j, j < k → isReady (fetch j) = false ∧ isError (fetch j) = false)
    (hns : isReady (fetch k) = false) (he : isError (fetch k) = true) :
    pollLoop isReady isError mkError fetch m 0 = (Except.error (mkError (fetch k)), k + 1) := by
  obtain ⟨rest, hrest⟩ : ∃ rest, m = k + (rest + 1) := ⟨m - k - 1, by omega⟩
  subst hrest
  rw [pollLoop_skip isReady isError mkError fetch k (rest + 1) 0 (by simpa using hpre)]
  rw [pollLoop]
  simp [hns, he]

/-- A `pollLoop` over a never-terminal prefix exhausts its budget: exactly
`m` fetches, then the timeout error. -/
theorem pollLoop_timeout {α : Type} (isReady isError : α → Bool) (mkError : α → ReadyError)
    (fetch : Nat → α) (m : Nat)
    (hpre : ∀ j, j < m → isReady (fetch j) = false ∧ isError (fetch j) = false) :
    pollLoop isReady isError mkError fetch m 0 = (Except.error ReadyError.timeout, m) := by
  have hm : m = m + 0 := by omega
  rw [hm, pollLoop_skip isReady isError mkError fetch m 0 0 (by simpa using hpre)]
  simp [pollLoop]

/-- Skipping an initial reply-less, failure-less segment of a
`wait_for_message_response` run. -/
theorem wfmrAux_skip (histories : Nat → List Message) (chatState : Nat → Option ChatState)
    (hid : String) (k : Nat) :
    ∀ (rest idx : Nat),
      (∀ j, j < k → findResponse hid (histories (idx + j)) = Option.none
          ∧ chatState (idx + j) ≠ some ChatState.failed) →
      wfmrAux histories chatState hid (k + rest) idx
        = wfmrAux histories chatState hid rest (idx + k) := by
  induction k with
  | zero => intro rest idx _; simp
  | succ k ih =>
    intro rest idx hpre
    have h0 := hpre 0 (Nat.succ_pos k)
    simp only [Nat.add_zero] at h0
    have hstep : k + 1 + rest = (k + rest) + 1 := by omega
    rw [hstep, wfmrAux]
    rw [h0.1]
    simp only [if_neg h0.2]
    have hrec := ih rest (idx + 1) (fun j hj => by
      have hpj := hpre (j + 1) (Nat.succ_lt_succ hj)
      have harith : idx + 1 + j = idx + (j + 1) := by omega
      rw [harith]
      exact hpj)
    rw [hrec]
    congr 1
    omega

/-- The history-fetch count of a `wait_for_message_response` run never
exceeds start index plus fuel. -/
theorem wfmrAux_count_le (histories : Nat → List Message) (chatState : Nat → Option ChatState)
    (hid : String) :
    ∀ (fuel idx : Nat),
      (wfmrAux histories chatState hid fuel idx).2 ≤ idx + fuel := by
  intro fuel
  induction fuel with
  | zero => intro idx; simp [wfmrAux]
  | succ fuel ih =>
    intro idx
    rw [wfmrAux]
    cases hfind : findResponse hid (histories idx) with
    | some m => simp
    | none =>
      by_cases hcs : chatState idx = some ChatState.failed
      · simp only [if_pos hcs]
        omega
      · simp only [if_neg hcs]
        have := ih (idx + 1)
        omega

/-- A run of the pab_client tool-readiness loop over a never-terminal fetch
sequence is still running after any number of iterations. -/
theorem pabToolWaitFuel_none (fetch : Nat → StateProj)
    (h : ∀ k, (fetch k).state ≠ some "ready" ∧ (fetch k).state ≠ some "error") :
    ∀ (fuel idx : Nat), pabToolWaitFuel fetch fuel idx = Option.none := by
  intro fuel
  induction fuel with
  | zero => intro idx; rfl
  | succ fuel ih =>
    intro idx
    rw [pabToolWaitFuel]
    simp only [if_neg (h idx).2, if_neg (h idx).1]
    exact ih (idx + 1)

/-- A run of the pab_client resource-readiness loop over a never-terminal
fetch sequence is still running after any number of iterations. -/
theorem pabResourceWaitFuel_none (fetch : Nat → StateProj)
    (h : ∀ k, (fetch k).state ≠ some "ready" ∧ (fetch k).state ≠ some "error") :
    ∀ (fuel idx : Nat), pabResourceWaitFuel fetch fuel idx = Option.none := by
  intro fuel
  induction fuel with
  | zero => intro idx; rfl
  | succ fuel ih =>
    intro idx
    rw [pabResourceWaitFuel]
    simp only [if_neg (h idx).2, if_neg (h idx).1]
    exact ih (idx + 1)

/-! ## Claim theorems -/

/-- C1: a single poll whose listing contains exactly one message whose
previous-reference equals the given `history_id` (and any number of
unrelated messages) makes `wait_for_message_response` return that message —
regardless of its position in the list — without raising an error. -/
theorem c1_reply_correlation (msgs : List Message) (history_id : String) (msg : Message)
    (chatState : Nat → Option ChatState) (max_attempts : Nat)
    (hm : 0 < max_attempts)
    (hmem : msg ∈ msgs)
    (hmatch : msg.previous_id = some (JValue.str history_id))
    (huniq : ∀ m', m' ∈ msgs → m'.previous_id = some (JValue.str history_id) → m' = msg) :
    wait_for_message_response (fun _ => msgs) chatState history_id max_attempts
      = (Except.ok msg, 1) := by
  obtain ⟨m', rfl⟩ : ∃ m', max_attempts = m' + 1 := ⟨max_attempts - 1, by omega⟩
  unfold wait_for_message_response
  rw [wfmrAux]
  rw [findResponse_eq_of_unique history_id msgs msg hmem hmatch huniq]

/-- C1 witness: a three-message listing with the unique reply in the middle. -/
theorem c1_reply_correlation_witness :
    wait_for_message_response
      (fun _ => [⟨JValue.str "ping", MessageRole.user, Option.none, Option.none,
                    Option.none, Option.none⟩,
                 ⟨JValue.str "pong", MessageRole.ai, Option.none, Option.none,
                    some (JValue.str "h1"), Option.none⟩,
                 ⟨JValue.str "noise", MessageRole.user, Option.none, Option.none,
                    some (JValue.num 7), Option.none⟩])
      (fun _ => some ChatState.processing) "h1" 60
      = (Except.ok ⟨JValue.str "pong", MessageRole.ai, Option.none, Option.none,
                    some (JValue.str "h1"), Option.none⟩, 1) := by
  apply c1_reply_correlation
  · decide
  · simp
  · rfl
  · intro m' hm' hprev
    rcases List.mem_cons.mp hm' with h1 | h1
    · subst h1; simp at hprev
    · rcases List.mem_cons.mp h1 with h2 | h2
      · exact h2
      · rcases List.mem_cons.mp h2 with h3 | h3
        · subst h3; simp at hprev
        · cases h3

/-- C2: the readiness pollers perform at most `max_attempts` fetches,
return on the first ready fetch, raise `ResourceNotReadyError` carrying the
server-reported error text on the first error fetch (no further fetch), and
against a source that never reaches a terminal state perform exactly
`max_attempts` fetches and then raise `TimeoutError`. -/
theorem c2_readiness_poller :
    (∀ (fetch : Nat → Tool) (m : Nat),
        (wait_for_tool_ready fetch m).2 ≤ m
      ∧ (∀ k, k < m →
          (∀ j, j < k → (fetch j).state ≠ some "ready" ∧ (fetch j).state ≠ some "error") →
            ((fetch k).state = some "ready" →
              wait_for_tool_ready fetch m = (Except.ok (fetch k), k + 1))
          ∧ ((fetch k).state = some "error" →
              wait_for_tool_ready fetch m
                = (Except.error (ReadyError.resourceNotReady (fetch k).last_error), k + 1)))
      ∧ ((∀ k, k < m → (fetch k).state ≠ some "ready" ∧ (fetch k).state ≠ some "error") →
          wait_for_tool_ready fetch m = (Except.error ReadyError.timeout, m)))
  ∧ (∀ (fetch : Nat → Resource) (m : Nat),
        (wait_for_resource_ready fetch m).2 ≤ m
      ∧ (∀ k, k < m →
          (∀ j, j < k → (fetch j).state ≠ some ResourceState.ready
              ∧ (fetch j).state ≠ some ResourceState.error) →
            ((fetch k).state = some ResourceState.ready →
              wait_for_resource_ready fetch m = (Except.ok (fetch k), k + 1))
          ∧ ((fetch k).state = some ResourceState.error →
              wait_for_resource_ready fetch m
                = (Except.error (ReadyError.resourceNotReady (fetch k).last_error), k + 1)))
      ∧ ((∀ k, k < m → (fetch k).state ≠ some ResourceState.ready
              ∧ (fetch k).state ≠ some ResourceState.error) →
          wait_for_resource_ready fetch m = (Except.error ReadyError.timeout, m))) := by
  constructor
  · intro fetch m
    refine ⟨?_, ?_, ?_⟩
    · simpa using pollLoop_count_le _ _ _ fetch m 0
    · intro k hk hpre
      have hpre' : ∀ j, j < k →
          (decide ((fetch j).state = some "ready")) = false
          ∧ (decide ((fetch j).state = some "error")) = false := fun j hj =>
        ⟨decide_eq_false_iff_not.mpr (hpre j hj).1, decide_eq_false_iff_not.mpr (hpre j hj).2⟩
      constructor
      · intro hr
        exact pollLoop_ready_at _ _ _ fetch m k hk hpre' (decide_eq_true hr)
      · intro he
        refine pollLoop_error_at _ _ _ fetch m k hk hpre' ?_ (decide_eq_true he)
        refine decide_eq_false_iff_not.mpr ?_
        rw [he]
        decide
    · intro hpre
      exact pollLoop_timeout _ _ _ fetch m (fun j hj =>
        ⟨decide_eq_false_iff_not.mpr (hpre j hj).1, decide_eq_false_iff_not.mpr (hpre j hj).2⟩)
  · intro fetch m
    refine ⟨?_, ?_, ?_⟩
    · simpa using pollLoop_count_le _ _ _ fetch m 0
    · intro k hk hpre
      have hpre' : ∀ j, j < k →
          (decide ((fetch j).state = some ResourceState.ready)) = false
          ∧ (decide ((fetch j).state = some ResourceState.error)) = false := fun j hj =>
        ⟨decide_eq_false_iff_not.mpr (hpre j hj).1, decide_eq_false_iff_not.mpr (hpre j hj).2⟩
      constructor
      · intro hr
        exact pollLoop_ready_at _ _ _ fetch m k hk hpre' (decide_eq_true hr)
      · intro he
        refine pollLoop_error_at _ _ _ fetch m k hk hpre' ?_ (decide_eq_true he)
        refine decide_eq_false_iff_not.mpr ?_
        rw [he]
        decide
    · intro hpre
      exact pollLoop_timeout _ _ _ fetch m (fun j hj =>
        ⟨decide_eq_false_iff_not.mpr (hpre j hj).1, decide_eq_false_iff_not.mpr (hpre j hj).2⟩)

/-- C2 witness: the timeout boundary, `max_attempts = 3` against sources
that never reach a terminal state — exactly 3 fetches then `TimeoutError`;
and an error on the second fetch — exactly 2 fetches, error text carried. -/
theorem c2_readiness_poller_witness :
    wait_for_tool_ready (fun _ => ⟨some "creating", Option.none⟩) 3
      = (Except.error ReadyError.timeout, 3)
    ∧ wait_for_resource_ready (fun _ => ⟨some ResourceState.processing, Option.none⟩) 3
      = (Except.error ReadyError.timeout, 3)
    ∧ wait_for_tool_ready
        (fun k => if k = 0 then ⟨some "creating", Option.none⟩
                  else ⟨some "error", some "bad tool"⟩) 30
      = (Except.error (ReadyError.resourceNotReady (some "bad tool")), 2) := by
  refine ⟨?_, ?_, ?_⟩
  · exact (c2_readiness_poller.1 (fun _ => ⟨some "creating", Option.none⟩) 3).2.2
      (fun k _ => by constructor <;> decide)
  · exact (c2_readiness_poller.2 (fun _ => ⟨some ResourceState.processing, Option.none⟩) 3).2.2
      (fun k _ => by constructor <;> decide)
  · have h := ((c2_readiness_poller.1
      (fun k => if k = 0 then ⟨some "creating", Option.none⟩
                else ⟨some "error", some "bad tool"⟩) 30).2.1 1 (by decide)
      (fun j hj => by interval_cases j; exact ⟨by decide, by decide⟩)).2 (by decide)
    simpa using h

/-- C3: `PABClient.add_document` retries only on HTTP 503; against a
permanently-503 server with `max_retries = 3` it performs exactly 3
attempts, sleeping 2 then 4 seconds before attempts 2 and 3, and re-raises
the original error unchanged; any non-503 error propagates immediately
after a single attempt, with no sleeps. -/
theorem c3_retry_backoff :
    (∀ body : String,
        add_document (fun _ => Except.error (PyExc.httpStatusError 503 body)) 3
          = (Except.error (PyExc.httpStatusError 503 body), [2, 4], 3))
  ∧ (∀ (e : PyExc) (att : Nat → Except PyExc String),
        is503 e = false → att 0 = Except.error e →
        add_document att 3 = (Except.error e, [], 1)) := by
  constructor
  · intro body
    simp [add_document, addDocLoop]
  · intro e att hne hatt
    unfold add_document
    rw [addDocLoop]
    rw [if_pos (by omega)]
    rw [hatt]
    cases e with
    | httpStatusError status body =>
      have hs : ¬(status = 503) := by
        intro hcon
        subst hcon
        simp [is503] at hne
      simp only []
      rw [if_neg (by intro hcon; exact hs hcon.1)]
    | valueError msg => rfl
    | attributeError msg => rfl
    | runtimeError msg => rfl
    | other msg => rfl

/-- C3 witness: the permanently-503 boundary and an immediate non-503
propagation. -/
theorem c3_retry_backoff_witness :
    add_document (fun _ => Except.error (PyExc.httpStatusError 503 "Service Unavailable")) 3
      = (Except.error (PyExc.httpStatusError 503 "Service Unavailable"), [2, 4], 3)
    ∧ add_document (fun _ => Except.error (PyExc.httpStatusError 500 "oops")) 3
      = (Except.error (PyExc.httpStatusError 500 "oops"), [], 1) := by
  constructor
  · exact c3_retry_backoff.1 "Service Unavailable"
  · exact c3_retry_backoff.2 (PyExc.httpStatusError 500 "oops")
      (fun _ => Except.error (PyExc.httpStatusError 500 "oops")) (by decide) rfl

/-- C4 (code bug): after `TokenManager._refresh_token` at time `t`, an
immediately consecutive `get_token` at the same time reuses the cached
token (no second grant), as the claim states; but after
`PABClient._refresh_token` at time `t`, an immediately consecutive
`PABClient._get_token` evaluates `time.time() > self._token_expiry * 0.9`
— which multiplies the absolute expiry timestamp by 0.9 — as true and
performs a second grant request. -/
theorem c4_token_reuse_eval :
    (tm_get_token (tm_refresh 1700000000 "tok" 3600) 1700000000 ("tok2", 3600)).2.2 = false
    ∧ (pab_get_token (pab_refresh 1700000000 "tok" 3600) 1700000000 ("tok2", 3600)).2.2 = true
    ∧ (tm_get_token (tm_refresh 1700000000 "tok" 3600) 1700000000 ("tok2", 3600)).2.1 = "tok"
    ∧ (pab_get_token (pab_refresh 1700000000 "tok" 3600) 1700000000 ("tok2", 3600)).2.1 = "tok2" := by
  have htm : tm_needs_refresh (tm_refresh 1700000000 "tok" 3600) 1700000000 = false := by
    unfold tm_needs_refresh tm_refresh
    norm_num
    exact ⟨by simp, by simp⟩
  have hpab : pab_needs_refresh (pab_refresh 1700000000 "tok" 3600) 1700000000 = true := by
    unfold pab_needs_refresh pab_refresh
    norm_num
  refine ⟨?_, ?_, ?_, ?_⟩
  · unfold tm_get_token
    rw [htm]
    simp [tm_refresh]
  · unfold pab_get_token
    rw [hpab]
    simp [pab_refresh]
  · unfold tm_get_token
    rw [htm]
    simp [tm_refresh]
  · unfold pab_get_token
    rw [hpab]
    simp [pab_refresh]

/-- C5 counterexample: `create_tool` performs no name-based deduplication —
two creations under the same logical name yield two different server
identifiers and leave two entities with that name on the server, against
the claim's same-identifier / no-duplicate statement. -/
theorem c5_create_by_name_cex :
    (create_tool (create_tool ⟨0, []⟩ "mytool").1 "mytool").2 ≠ (create_tool ⟨0, []⟩ "mytool").2
    ∧ ((create_tool (create_tool ⟨0, []⟩ "mytool").1 "mytool").1.entities.filter
        (fun t => t.2 = "mytool")).length = 2 := by
  constructor
  · decide
  · rfl

/-- C5 amended: creating a Chat twice under one name returns the same
identifier and leaves the server unchanged; but `create_tool` issues a
second creation under the same name (a new, distinct identifier), and
`PABClient.create_agent` suffixes each call's name with a fresh UUID
fragment, so two calls with the same logical name create two distinct
agents whenever the suffixed names are distinct and unused. -/
theorem c5_create_by_name_amended :
    (∀ (s : EntityServer) (name : String),
        (create_chat (create_chat s name).1 name).2 = (create_chat s name).2
      ∧ (create_chat (create_chat s name).1 name).1 = (create_chat s name).1)
  ∧ (∀ (s : EntityServer) (name : String),
        (create_tool (create_tool s name).1 name).2 ≠ (create_tool s name).2)
  ∧ (∀ (s : EntityServer) (name u1 u2 : String),
        name ++ "-" ++ u1 ≠ name ++ "-" ++ u2 →
        s.entities.find? (fun a => a.2 = name ++ "-" ++ u1) = Option.none →
        s.entities.find? (fun a => a.2 = name ++ "-" ++ u2) = Option.none →
        (pab_create_agent (pab_create_agent s name u1).1 name u2).2
          ≠ (pab_create_agent s name u1).2) := by
  refine ⟨?_, ?_, ?_⟩
  · intro s name
    unfold create_chat
    cases hfind : s.entities.find? (fun c => c.2 = name) with
    | some c =>
      simp [hfind]
    | none =>
      simp only [hfind]
      unfold server_create
      simp only []
      rw [List.find?_append, hfind]
      simp
  · intro s name
    unfold create_tool server_create
    simp
  · intro s name u1 u2 hne h1 h2
    unfold pab_create_agent
    rw [h1]
    unfold server_create
    simp only []
    rw [List.find?_append, h2]
    have hsingle : List.find? (fun a => a.2 = name ++ "-" ++ u2) [(s.nextId, name ++ "-" ++ u1)]
        = Option.none := by
      simp [List.find?, hne]
    rw [Option.none_or, hsingle]
    simp

/-- C5 witness: a fresh server — the second chat creation returns the first
chat's identifier, while the second agent creation under distinct UUID
suffixes yields a different identifier. -/
theorem c5_create_by_name_witness :
    ((create_chat (create_chat ⟨0, []⟩ "session").1 "session").2
        = (create_chat ⟨0, []⟩ "session").2)
    ∧ ((pab_create_agent (pab_create_agent ⟨0, []⟩ "agent" "aaa11111").1 "agent" "bbb22222").2
        ≠ (pab_create_agent ⟨0, []⟩ "agent" "aaa11111").2) := by
  constructor
  · exact (c5_create_by_name_amended.1 ⟨0, []⟩ "session").1
  · exact c5_create_by_name_amended.2.2 ⟨0, []⟩ "agent" "aaa11111" "bbb22222"
      (by decide) rfl rfl

/-- C6 counterexample: chat state already `failed` while the listing holds a
reply node — the poll returns the reply instead of raising `ApiError`, so
chat failure is not detected independently of finding a reply node. -/
theorem c6_chat_failed_cex :
    wait_for_message_response
      (fun _ => [⟨JValue.str "pong", MessageRole.ai, Option.none, Option.none,
                    some (JValue.str "h1"), Option.none⟩])
      (fun _ => some ChatState.failed) "h1" 60
      = (Except.ok ⟨JValue.str "pong", MessageRole.ai, Option.none, Option.none,
                    some (JValue.str "h1"), Option.none⟩, 1)
    ∧ (wait_for_message_response
        (fun _ => [⟨JValue.str "pong", MessageRole.ai, Option.none, Option.none,
                      some (JValue.str "h1"), Option.none⟩])
        (fun _ => some ChatState.failed) "h1" 60).1 ≠ Except.error WaitError.apiError := by
  refine ⟨rfl, ?_⟩
  intro hcon
  exact Except.noConfusion hcon

/-- C6 amended: if the chat state turns `failed` before any reply node
appears, the poll that observes it raises `ApiError` — not `TimeoutError` —
and polls no further; but the chat state is consulted only on iterations in
which no reply node is found: an iteration that finds a reply returns it
whatever the chat state is. -/
theorem c6_chat_failed_amended :
    (∀ (histories : Nat → List Message) (chatState : Nat → Option ChatState)
        (hid : String) (m k : Nat),
        k < m →
        (∀ j, j ≤ k → findResponse hid (histories j) = Option.none) →
        (∀ j, j < k → chatState j ≠ some ChatState.failed) →
        chatState k = some ChatState.failed →
        wait_for_message_response histories chatState hid m
          = (Except.error WaitError.apiError, k + 1))
  ∧ (∀ (histories : Nat → List Message) (chatState : Nat → Option ChatState)
        (hid : String) (m k : Nat) (msg : Message),
        k < m →
        (∀ j, j < k → findResponse hid (histories j) = Option.none) →
        (∀ j, j < k → chatState j ≠ some ChatState.failed) →
        findResponse hid (histories k) = some msg →
        wait_for_message_response histories chatState hid m = (Except.ok msg, k + 1)) := by
  constructor
  · intro histories chatState hid m k hk hnof hnofail hfail
    obtain ⟨rest, rfl⟩ : ∃ rest, m = k + (rest + 1) := ⟨m - k - 1, by omega⟩
    unfold wait_for_message_response
    rw [wfmrAux_skip histories chatState hid k (rest + 1) 0
      (fun j hj => by simpa using ⟨hnof j (Nat.le_of_lt hj), hnofail j hj⟩)]
    rw [wfmrAux]
    simp only [Nat.zero_add]
    rw [hnof k (Nat.le_refl k)]
    simp [hfail]
  · intro histories chatState hid m k msg hk hnof hnofail hfind
    obtain ⟨rest, rfl⟩ : ∃ rest, m = k + (rest + 1) := ⟨m - k - 1, by omega⟩
    unfold wait_for_message_response
    rw [wfmrAux_skip histories chatState hid k (rest + 1) 0
      (fun j hj => by simpa using ⟨hnof j hj, hnofail j hj⟩)]
    rw [wfmrAux]
    simp only [Nat.zero_add]
    rw [hfind]

/-- C6 witness: an empty first listing and a failed chat state — `ApiError`
after one history fetch; and a reply found on the second poll of a healthy
chat — returned after two fetches. -/
theorem c6_chat_failed_witness :
    wait_for_message_response (fun _ => []) (fun _ => some ChatState.failed) "h1" 60
      = (Except.error WaitError.apiError, 1)
    ∧ wait_for_message_response
        (fun k => if k = 0 then []
                  else [⟨JValue.str "pong", MessageRole.ai, Option.none, Option.none,
                          some (JValue.str "h1"), Option.none⟩])
        (fun _ => some ChatState.running) "h1" 60
      = (Except.ok ⟨JValue.str "pong", MessageRole.ai, Option.none, Option.none,
                      some (JValue.str "h1"), Option.none⟩, 2) := by
  constructor
  · exact c6_chat_failed_amended.1 (fun _ => []) (fun _ => some ChatState.failed) "h1" 60 0
      (by decide) (fun j _ => rfl) (fun j hj => absurd hj (Nat.not_lt_zero j)) rfl
  · exact c6_chat_failed_amended.2
      (fun k => if k = 0 then []
                else [⟨JValue.str "pong", MessageRole.ai, Option.none, Option.none,
                        some (JValue.str "h1"), Option.none⟩])
      (fun _ => some ChatState.running) "h1" 60 1 _
      (by decide)
      (fun j hj => by interval_cases j; rfl)
      (fun j hj => by simp)
      (by rfl)

/-- C7 counterexample: an absent state field satisfies the pab_client tool
poller's ready test never — the loop is still polling after the first
iteration (and any number more) — while a `"ready"` state returns success
at once: absent and ready are not treated identically by every poller. -/
theorem c7_absent_state_cex :
    pabToolWaitFuel (fun _ => ⟨some "ready", Option.none⟩) 1 0 = some (Except.ok ())
    ∧ pabToolWaitFuel (fun _ => ⟨Option.none, Option.none⟩) 1 0 = Option.none := by
  exact ⟨rfl, rfl⟩

/-- C7 amended: only `PABClient._wait_for_agent_ready` treats an absent
state field as ready (success on the first fetch); the tool and resource
pollers treat absent state as not-ready and keep polling indefinitely; the
behaviour is hardcoded in each poller, not configured per entity kind. -/
theorem c7_absent_state_amended :
    (∀ (fetch : Nat → StateProj), (fetch 0).state = Option.none →
        ∀ fuel, pabAgentWaitFuel fetch (fuel + 1) 0 = some (Except.ok ()))
  ∧ (∀ (fetch : Nat → StateProj), (∀ k, (fetch k).state = Option.none) →
        ∀ fuel, pabToolWaitFuel fetch fuel 0 = Option.none)
  ∧ (∀ (fetch : Nat → StateProj), (∀ k, (fetch k).state = Option.none) →
        ∀ fuel, pabResourceWaitFuel fetch fuel 0 = Option.none) := by
  refine ⟨?_, ?_, ?_⟩
  · intro fetch h0 fuel
    rw [pabAgentWaitFuel]
    rw [h0]
    simp
  · intro fetch habs fuel
    exact pabToolWaitFuel_none fetch
      (fun k => by rw [habs k]; exact ⟨by simp, by simp⟩) fuel 0
  · intro fetch habs fuel
    exact pabResourceWaitFuel_none fetch
      (fun k => by rw [habs k]; exact ⟨by simp, by simp⟩) fuel 0

/-- C7 witness: constant absent-state sources — the agent poller succeeds on
its first fetch, the tool and resource pollers are still polling after 100
iterations. -/
theorem c7_absent_state_witness :
    pabAgentWaitFuel (fun _ => ⟨Option.none, Option.none⟩) 100 0 = some (Except.ok ())
    ∧ pabToolWaitFuel (fun _ => ⟨Option.none, Option.none⟩) 100 0 = Option.none
    ∧ pabResourceWaitFuel (fun _ => ⟨Option.none, Option.none⟩) 100 0 = Option.none := by
  refine ⟨?_, ?_, ?_⟩
  · exact c7_absent_state_amended.1 (fun _ => ⟨Option.none, Option.none⟩) rfl 99
  · exact c7_absent_state_amended.2.1 (fun _ => ⟨Option.none, Option.none⟩) (fun _ => rfl) 100
  · exact c7_absent_state_amended.2.2 (fun _ => ⟨Option.none, Option.none⟩) (fun _ => rfl) 100

/-- C8 counterexample: `PABClient._wait_for_tool_ready` against a source
that never reaches a terminal state has no attempt bound — no number of
iterations makes it stop. -/
theorem c8_bounded_polling_cex :
    ¬ ∃ (n : Nat) (r : Except (Option String) Unit),
        pabToolWaitFuel (fun _ => ⟨some "creating", Option.none⟩) n 0 = some r := by
  rintro ⟨n, r, hr⟩
  rw [pabToolWaitFuel_none (fun _ => ⟨some "creating", Option.none⟩)
    (fun _ => ⟨by simp, by simp⟩) n 0] at hr
  exact Option.noConfusion hr

/-- C8 amended: the pab_sdk reply poller `wait_for_message_response` is
bounded — it performs at most `max_attempts` history fetches, and against a
source that never yields a reply nor a failed chat state it performs
exactly `max_attempts` fetches and raises `TimeoutError`; the pab_client
`_wait_for_tool_ready` and `_wait_for_resource_ready` loops are unbounded
`while` loops that keep polling a never-terminal source forever. -/
theorem c8_bounded_polling_amended :
    (∀ (histories : Nat → List Message) (chatState : Nat → Option ChatState)
        (hid : String) (m : Nat),
        (wait_for_message_response histories chatState hid m).2 ≤ m)
  ∧ (∀ (histories : Nat → List Message) (chatState : Nat → Option ChatState)
        (hid : String) (m : Nat),
        (∀ k, k < m → findResponse hid (histories k) = Option.none
            ∧ chatState k ≠ some ChatState.failed) →
        wait_for_message_response histories chatState hid m
          = (Except.error WaitError.timeout, m))
  ∧ (∀ (fetch : Nat → StateProj),
        (∀ k, (fetch k).state ≠ some "ready" ∧ (fetch k).state ≠ some "error") →
        ∀ (n : Nat), pabToolWaitFuel fetch n 0 = Option.none
          ∧ pabResourceWaitFuel fetch n 0 = Option.none) := by
  refine ⟨?_, ?_, ?_⟩
  · intro histories chatState hid m
    simpa using wfmrAux_count_le histories chatState hid m 0
  · intro histories chatState hid m hpre
    unfold wait_for_message_response
    have hm : m = m + 0 := by omega
    rw [hm, wfmrAux_skip histories chatState hid m 0 0 (fun j hj => by simpa using hpre j hj)]
    rw [wfmrAux]
    simp
  · intro fetch hpre n
    exact ⟨pabToolWaitFuel_none fetch hpre n 0, pabResourceWaitFuel_none fetch hpre n 0⟩

/-- C8 witness: an always-empty history with a healthy chat exhausts a
budget of 3 in exactly 3 fetches with `TimeoutError`, while the pab_client
loops are still running after 1000 iterations on a processing state. -/
theorem c8_bounded_polling_witness :
    wait_for_message_response (fun _ => []) (fun _ => some ChatState.active) "h9" 3
      = (Except.error WaitError.timeout, 3)
    ∧ pabToolWaitFuel (fun _ => ⟨some "processing", Option.none⟩) 1000 0 = Option.none
    ∧ pabResourceWaitFuel (fun _ => ⟨some "processing", Option.none⟩) 1000 0 = Option.none := by
  refine ⟨?_, ?_, ?_⟩
  · exact c8_bounded_polling_amended.2.1 (fun _ => []) (fun _ => some ChatState.active) "h9" 3
      (fun k _ => ⟨rfl, by simp⟩)
  · exact (c8_bounded_polling_amended.2.2 (fun _ => ⟨some "processing", Option.none⟩)
      (fun _ => ⟨by simp, by simp⟩) 1000).1
  · exact (c8_bounded_polling_amended.2.2 (fun _ => ⟨some "processing", Option.none⟩)
      (fun _ => ⟨by simp, by simp⟩) 1000).2

/-- C9 counterexample: with an empty in-memory registry but the document
present on the server, `remove_document` reports `False` and
`get_document_content` reports `None`, each after zero server requests —
the registry miss is treated as authoritative, with no server fallback. -/
theorem c9_registry_cex :
    ai_remove_document [] [("r1", "doc")] "doc" = (false, 0)
    ∧ ai_get_document_content (fun s => some s) [] [("r1", "doc", some "content")] "doc"
      = (Option.none, 0) := by
  exact ⟨rfl, rfl⟩

/-- C9 amended: the document-tool lookup consults only the in-memory
registry: whenever `"document"` is absent from it, `remove_document`
returns `False` and `get_document_content` returns `None` immediately,
performing no server request — whatever the server holds. -/
theorem c9_registry_amended (tools : List (String × String))
    (hmiss : tools.find? (fun p => p.1 = "document") = Option.none) :
    (∀ (serverResources : List (String × String)) (docName : String),
        ai_remove_document tools serverResources docName = (false, 0))
    ∧ (∀ (b64decode : String → Option String)
         (serverResources : List (String × String × Option String)) (docName : String),
        ai_get_document_content b64decode tools serverResources docName
          = (Option.none, 0)) := by
  constructor
  · intro serverResources docName
    unfold ai_remove_document
    rw [hmiss]
    rfl
  · intro b64decode serverResources docName
    unfold ai_get_document_content
    rw [hmiss]
    rfl

/-- C9 witness: a registry holding only a websearch tool — both document
operations conclude "absent" with zero server requests although the server
holds the document. -/
theorem c9_registry_witness :
    ai_remove_document [("websearch", "t7")] [("r1", "notes")] "notes" = (false, 0)
    ∧ ai_get_document_content (fun s => some s) [("websearch", "t7")]
        [("r1", "notes", some "text")] "notes" = (Option.none, 0) := by
  have h := c9_registry_amended [("websearch", "t7")] (by rfl)
  exact ⟨h.1 [("r1", "notes")] "notes", h.2 (fun s => some s) [("r1", "notes", some "text")] "notes"⟩

/-- C10 counterexample: `Message.from_api_dict` is not total — a present but
malformed `createdAt` string reaches `datetime.fromisoformat`, which raises
`ValueError`, so the constructor propagates an exception. -/
theorem c10_from_api_dict_cex :
    Message.from_api_dict [("createdAt", JValue.str "garbage")]
      = Except.error (PyExc.valueError "Invalid isoformat string: garbage") := by
  rfl

/-- C10 amended: `Message.from_api_dict` never raises on any input whose
`createdAt` field parses (in particular whenever it is absent); on such
inputs an unknown role maps to the user role, an unknown type to no type,
a missing content field to the empty string, and the previous-reference
comes from a nested `previous.ID` object or the flat `previous_ID` field
(`None` when neither is present). -/
theorem c10_from_api_dict_amended (data : List (String × JValue)) (d : Option String)
    (hparse : parse_datetime (jlookup data "createdAt") = Except.ok d) :
    ∃ m, Message.from_api_dict data = Except.ok m
      ∧ m.created_at = d
      ∧ (messageRoleOf (roleValueOf data) = Option.none → m.role = MessageRole.user)
      ∧ (∀ tv, jlookup data "type" = some tv → messageTypeOf tv = Option.none →
            m.type = Option.none)
      ∧ (jlookup data "content" = Option.none → m.content = JValue.str "")
      ∧ (∀ fields, jlookup data "previous" = some (JValue.obj fields) →
            m.previous_id = jlookup fields "ID")
      ∧ (jlookup data "previous" = Option.none →
            m.previous_id = jlookup data "previous_ID")
      ∧ (jlookup data "previous" = Option.none → jlookup data "previous_ID" = Option.none →
            m.previous_id = Option.none) := by
  refine ⟨{ id := jlookup data "ID"
            content := (jlookup data "content").getD (JValue.str "")
            role := (messageRoleOf (roleValueOf data)).getD MessageRole.user
            created_at := d
            previous_id := previousIdOf data
            type := (jlookup data "type").bind messageTypeOf },
          ?_, rfl, ?_, ?_, ?_, ?_, ?_, ?_⟩
  · unfold Message.from_api_dict
    rw [hparse]
  · intro h
    show (messageRoleOf (roleValueOf data)).getD MessageRole.user = MessageRole.user
    rw [h]
    rfl
  · intro tv htv hnone
    show (jlookup data "type").bind messageTypeOf = Option.none
    rw [htv]
    simpa using hnone
  · intro h
    show (jlookup data "content").getD (JValue.str "") = JValue.str ""
    rw [h]
    rfl
  · intro fields hf
    show previousIdOf data = jlookup fields "ID"
    unfold previousIdOf
    rw [hf]
  · intro h
    show previousIdOf data = jlookup data "previous_ID"
    unfold previousIdOf
    rw [h]
  · intro h hflat
    show previousIdOf data = Option.none
    unfold previousIdOf
    rw [h, hflat]

/-- C10 witness: a dict with an unknown role and an unknown type, no
content, no previous-reference and no `createdAt` — parsed without an
exception into the user role, no type, empty content and no previous id. -/
theorem c10_from_api_dict_witness :
    ∃ m, Message.from_api_dict [("role", JValue.str "robot"), ("type", JValue.str "mystery")]
        = Except.ok m
      ∧ m.created_at = Option.none
      ∧ (messageRoleOf (roleValueOf [("role", JValue.str "robot"), ("type", JValue.str "mystery")])
            = Option.none → m.role = MessageRole.user)
      ∧ (∀ tv, jlookup [("role", JValue.str "robot"), ("type", JValue.str "mystery")] "type"
            = some tv → messageTypeOf tv = Option.none → m.type = Option.none)
      ∧ (jlookup [("role", JValue.str "robot"), ("type", JValue.str "mystery")] "content"
            = Option.none → m.content = JValue.str "")
      ∧ (∀ fields, jlookup [("role", JValue.str "robot"), ("type", JValue.str "mystery")] "previous"
            = some (JValue.obj fields) → m.previous_id = jlookup fields "ID")
      ∧ (jlookup [("role", JValue.str "robot"), ("type", JValue.str "mystery")] "previous"
            = Option.none →
          m.previous_id
            = jlookup [("role", JValue.str "robot"), ("type", JValue.str "mystery")] "previous_ID")
      ∧ (jlookup [("role", JValue.str "robot"), ("type", JValue.str "mystery")] "previous"
            = Option.none →
         jlookup [("role", JValue.str "robot"), ("type", JValue.str "mystery")] "previous_ID"
            = Option.none →
          m.previous_id = Option.none) :=
  c10_from_api_dict_amended [("role", JValue.str "robot"), ("type", JValue.str "mystery")]
    Option.none rfl
